import Mathlib

/- Verification development for the jiva controller client
   (src/controller/client/controller_client.go) and for the control-plane
   coordinator described by the repository specification.

   The client code is embedded shallowly: every HTTP exchange is mediated by an
   explicit transport oracle, and each client function returns, next to its
   result, the trace of requests it issued, so that retry behaviour and
   error propagation are visible as provable facts.  Go strings are modelled as
   Lean strings, except where suffix structure matters (the controller endpoint),
   where lists of characters are used.  Go map indexing, which yields the zero
   value "" for an absent key, is modelled explicitly. -/

namespace Client

/-- HTTP method of a request issued by the client. -/
inductive Method where
  | get
  | post
  | put
  | delete
deriving DecidableEq

/-- Outcome of one HTTP exchange, seen at the point where the Go code inspects
it: either the transport fails before a response arrives (modelling a non-nil
error from http.DefaultClient.Do or http.Get), or a response arrives carrying a
status code and a body; the body is recorded as the value it decodes to under
encoding/json, or none when decoding fails. -/
inductive Answer (α : Type) where
  | down (msg : String)
  | up (status : Nat) (body : Option α)
deriving DecidableEq

/-- Errors surfaced by the client functions.  noVolumeFound renders as the Go
error string made by errors.New in GetVolume. -/
inductive CliErr where
  | transportFailure (msg : String)
  | badResponse (status : Nat)
  | decodeFailure
  | noVolumeFound
deriving DecidableEq

/-- A transport answers each request, identified by its method and url, with one
outcome.  The client consults it exactly once per exchange; the requests
consulted are returned as a trace. -/
def Transport (α : Type) : Type := Method → String → Answer α

/-- URL computation inside ControllerClient.do: a path that does not start with
"http" is prefixed with the stored controller endpoint. -/
def doUrl (controller path : String) : String :=
  if path.startsWith "http" then path else controller ++ path

/-- ControllerClient.do: marshal the request (which never fails for the fixed
record payloads this client sends), issue the request once, fail on a transport
error or on any status of at least 300, and otherwise decode the body into the
result when a response object was supplied (wantBody), returning a decode
failure when the body does not decode. -/
def clientDo {α : Type} (controller path : String) (method : Method)
    (wantBody : Bool) (t : Transport α) :
    Except CliErr (Option α) × List (Method × String) :=
  let url := doUrl controller path
  (match t method url with
    | Answer.down m => Except.error (CliErr.transportFailure m)
    | Answer.up status body =>
      if 300 ≤ status then Except.error (CliErr.badResponse status)
      else if wantBody then
        match body with
        | some v => Except.ok (some v)
        | none => Except.error CliErr.decodeFailure
      else Except.ok none,
   [(method, url)])

/-- ControllerClient.get: one http.Get on controller ++ path followed by a json
decode of the body.  The status code of the response is never inspected. -/
def clientGet {α : Type} (controller path : String) (t : Transport α) :
    Except CliErr α × List (Method × String) :=
  let url := controller ++ path
  (match t Method.get url with
    | Answer.down m => Except.error (CliErr.transportFailure m)
    | Answer.up _ body =>
      match body with
      | some v => Except.ok v
      | none => Except.error CliErr.decodeFailure,
   [(Method.get, url)])

/-- Client-side view of rest.Replica: the address plus the link and action maps
served by the controller.  Only these fields are consulted by the client code
under verification. -/
structure Replica where
  address : String
  links : List (String × String)
  actions : List (String × String)
deriving DecidableEq

/-- Client-side view of rest.ReplicaCollection. -/
structure ReplicaCollection where
  data : List Replica
deriving DecidableEq

/-- Client-side view of rest.Volume: the name and the action map. -/
structure Volume where
  name : String
  actions : List (String × String)
deriving DecidableEq

/-- Client-side view of rest.VolumeCollection. -/
structure VolumeCollection where
  data : List Volume
deriving DecidableEq

/-- Client-side view of rest.SnapshotOutput. -/
structure SnapshotOutput where
  id : String
deriving DecidableEq

/-- Go map indexing over a string-valued map: the zero value "" for an absent
key. -/
def mapIndex (m : List (String × String)) (k : String) : String :=
  match m.lookup k with
  | some v => v
  | none => ""

/-- ControllerClient.GetVolume: get /volumes, then fail with the error
"No volume found" when the returned collection is empty, and otherwise return
its first volume. -/
def getVolume (controller : String) (tv : Transport VolumeCollection) :
    Except CliErr Volume × List (Method × String) :=
  let r := clientGet controller "/volumes" tv
  match r.1 with
  | Except.error e => (Except.error e, r.2)
  | Except.ok vols =>
    match vols.data with
    | [] => (Except.error CliErr.noVolumeFound, r.2)
    | v :: _ => (Except.ok v, r.2)

/-- ControllerClient.Start: fetch the volume, then post the StartInput to the
volume's start action url with no response object. -/
def start (controller : String) (tv : Transport VolumeCollection)
    (tp : Transport Unit) : Except CliErr Unit × List (Method × String) :=
  let rv := getVolume controller tv
  match rv.1 with
  | Except.error e => (Except.error e, rv.2)
  | Except.ok volume =>
    let rd := clientDo controller (mapIndex volume.actions "start") Method.post false tp
    (match rd.1 with
     | Except.error e => Except.error e
     | Except.ok _ => Except.ok (), rv.2 ++ rd.2)

/-- ControllerClient.RevertVolume: fetch the volume, then post the RevertInput to
the volume's revert action url, decoding the response into a Volume.  The branch
for an ok outcome with no body is unreachable, since clientDo with wantBody set
never returns ok none. -/
def revertVolume (controller name : String) (tv : Transport VolumeCollection)
    (tp : Transport Volume) : Except CliErr Volume × List (Method × String) :=
  let rv := getVolume controller tv
  match rv.1 with
  | Except.error e => (Except.error e, rv.2)
  | Except.ok volume =>
    let rd := clientDo controller (mapIndex volume.actions "revert") Method.post true tp
    (match rd.1 with
     | Except.error e => Except.error e
     | Except.ok (some out) => Except.ok out
     | Except.ok none => Except.error CliErr.decodeFailure, rv.2 ++ rd.2)

/-- ControllerClient.Snapshot: fetch the volume, then post the SnapshotInput to
the volume's snapshot action url, returning the id of the decoded
SnapshotOutput.  As in revertVolume, the ok-with-no-body branch is
unreachable. -/
def snapshotCall (controller name : String) (tv : Transport VolumeCollection)
    (tp : Transport SnapshotOutput) : Except CliErr String × List (Method × String) :=
  let rv := getVolume controller tv
  match rv.1 with
  | Except.error e => (Except.error e, rv.2)
  | Except.ok volume =>
    let rd := clientDo controller (mapIndex volume.actions "snapshot") Method.post true tp
    (match rd.1 with
     | Except.error e => Except.error e
     | Except.ok (some out) => Except.ok out.id
     | Except.ok none => Except.error CliErr.decodeFailure, rv.2 ++ rd.2)

/-- ControllerClient.RevertSnapshot: fetch the volume, then post the RevertInput
to the volume's revert action url with no response object. -/
def revertSnapshot (controller snapshotName : String)
    (tv : Transport VolumeCollection) (tp : Transport Unit) :
    Except CliErr Unit × List (Method × String) :=
  let rv := getVolume controller tv
  match rv.1 with
  | Except.error e => (Except.error e, rv.2)
  | Except.ok volume =>
    let rd := clientDo controller (mapIndex volume.actions "revert") Method.post false tp
    (match rd.1 with
     | Except.error e => Except.error e
     | Except.ok _ => Except.ok (), rv.2 ++ rd.2)

/-- ControllerClient.ListReplicas: get /replicas and return the Data field of the
decoded collection. -/
def listReplicas (controller : String) (tr : Transport ReplicaCollection) :
    Except CliErr (List Replica) × List (Method × String) :=
  let r := clientGet controller "/replicas" tr
  (match r.1 with
   | Except.error e => Except.error e
   | Except.ok col => Except.ok col.data, r.2)

/-- Loop body of ControllerClient.DeleteReplica: walk the listed replicas; at the
first one whose address matches, issue a DELETE to its self link (the raw link,
not prefixed by the endpoint), fail on a transport error or a status of at least
300, and otherwise return that record.  When no replica matches, return ok with
no record. -/
def deleteLoop (td : Transport Unit) (address : String) :
    List Replica → Except CliErr (Option Replica) × List (Method × String)
  | [] => (Except.ok none, [])
  | rep :: rest =>
    if rep.address == address then
      let url := mapIndex rep.links "self"
      (match td Method.delete url with
       | Answer.down m => Except.error (CliErr.transportFailure m)
       | Answer.up status _ =>
         if 300 ≤ status then Except.error (CliErr.badResponse status)
         else Except.ok (some rep),
       [(Method.delete, url)])
    else deleteLoop td address rest

/-- ControllerClient.DeleteReplica: list the replicas, then run the delete
loop. -/
def deleteReplica (controller address : String)
    (tr : Transport ReplicaCollection) (td : Transport Unit) :
    Except CliErr (Option Replica) × List (Method × String) :=
  let rl := listReplicas controller tr
  match rl.1 with
  | Except.error e => (Except.error e, rl.2)
  | Except.ok reps =>
    let rd := deleteLoop td address reps
    (rd.1, rl.2 ++ rd.2)

/-- The character list of the suffix "/v1". -/
def v1Suffix : List Char := ['/', 'v', '1']

/-- NewControllerClient: append "/v1" to the controller address unless it already
ends with it.  The address is modelled as its list of characters. -/
def newControllerClient (controller : List Char) : List Char :=
  if v1Suffix.isSuffixOf controller then controller else controller ++ v1Suffix

end Client

namespace Ctrl

/-- Modelled from the spec: the lifecycle state of a replica (section 3, Data
Model); the controller that owns it is not part of src. -/
inductive RState where
  | registering
  | awaitingRebuild
  | preparingRebuild
  | rebuilding
  | verifying
  | ready
  | failed
deriving DecidableEq

/-- Modelled from the spec: the replica type (Quorum or NonQuorum). -/
inductive RType where
  | quorum
  | nonQuorum
deriving DecidableEq

/-- Modelled from the spec: the replica record owned by the Replica Registry:
address, type, lifecycle state, revision count, peer identity metadata, up-time,
and the retained failure reason of a failed verify. -/
structure Replica where
  address : String
  rtype : RType
  state : RState
  revisionCount : Int
  peerDetails : String
  upTime : Nat
  failureReason : Option String
deriving DecidableEq

/-- Modelled from the spec: the ephemeral RebuildTicket created by
PrepareRebuild: target address, snapshot-chain descriptor, issuance time and
expiry deadline. -/
structure RebuildTicket where
  address : String
  descriptor : List String
  issuedAt : Nat
  deadline : Nat
deriving DecidableEq

/-- Modelled from the spec: the report of the Quorum Policy. -/
structure QuorumReport where
  quorumSatisfied : Bool
  requiredCount : Nat
  readyCount : Nat
deriving DecidableEq

/-- Modelled from the spec (section 4.2 Quorum Policy, absent from src): a pure
function over the replica set; RequiredCount is the strict majority of the
quorum-type replicas, ReadyCount counts the quorum-type replicas that are Ready,
and quorum is satisfied when the ready count reaches the required count. -/
def evaluate (rs : List Replica) : QuorumReport :=
  let quorumTotal := (rs.filter (fun r => r.rtype == RType.quorum)).length
  let ready :=
    (rs.filter (fun r => r.rtype == RType.quorum && r.state == RState.ready)).length
  let required := quorumTotal / 2 + 1
  ⟨decide (required ≤ ready), required, ready⟩

/-- Modelled from the spec: the aggregate volume state. -/
inductive VState where
  | healthy
  | degraded
  | rebuilding
  | faulted
deriving DecidableEq

/-- Modelled from the spec: the states of a replica that is mid-handshake in the
rebuild state machine. -/
def midHandshake (s : RState) : Bool :=
  s == RState.preparingRebuild || s == RState.rebuilding || s == RState.verifying

/-- Modelled from the spec (section 4.4 Volume Controller, absent from src):
Faulted when quorum is unsatisfied; Rebuilding when any replica is
mid-handshake; Degraded when quorum is satisfied but some replica is unhealthy;
Healthy otherwise. -/
def volumeStateOf (rs : List Replica) : VState :=
  if !(evaluate rs).quorumSatisfied then VState.faulted
  else if rs.any (fun r => midHandshake r.state) then VState.rebuilding
  else if rs.any (fun r => !(r.state == RState.ready)) then VState.degraded
  else VState.healthy

/-- Modelled from the spec: a named snapshot together with the address of the
replica holding its data. -/
structure SnapshotRec where
  name : String
  owner : String
deriving DecidableEq

/-- Modelled from the spec: the state owned by the Volume Controller: the
replica registry, the outstanding rebuild tickets, the volume generation
counter, the aggregate volume state, and the snapshot catalog. -/
structure Volume where
  replicas : List Replica
  tickets : List RebuildTicket
  generation : Int
  vstate : VState
  snapshots : List SnapshotRec
deriving DecidableEq

/-- Modelled from the spec: the error taxonomy of section 7 (the caller
errors). -/
inductive SrvErr where
  | notFound
  | conflict
  | staleRevision
  | noOutstandingTicket
  | notQuorate
deriving DecidableEq

/-- Registry lookup by address. -/
def findReplica (c : Volume) (address : String) : Option Replica :=
  c.replicas.find? (fun r => r.address == address)

/-- Pointwise update of the record at an address, leaving all others
untouched. -/
def setReplica (rs : List Replica) (address : String) (f : Replica → Replica) :
    List Replica :=
  rs.map (fun r => if r.address == address then f r else r)

/-- Whether an outstanding ticket exists for an address. -/
def hasTicket (c : Volume) (address : String) : Bool :=
  c.tickets.any (fun t => t.address == address)

/-- Modelled from the spec (section 4.1 Replica Registry, absent from src):
Register inserts or updates the record and fails with StaleRevision when the
incoming revision count is lower than the stored one, unless the replica is
moving out of the Failed state.  Every mutation recomputes the aggregate volume
state.  Each operation returns its result next to the (possibly unchanged)
controller state, so an error visibly leaves the state intact. -/
def register (c : Volume) (address : String) (rev : Int) (peer : String)
    (ty : RType) (up : Nat) (st : RState) : Except SrvErr Unit × Volume :=
  match findReplica c address with
  | none =>
    let rs := c.replicas ++ [⟨address, ty, st, rev, peer, up, none⟩]
    (Except.ok (), { c with replicas := rs, vstate := volumeStateOf rs })
  | some old =>
    if rev < old.revisionCount ∧ ¬(old.state = RState.failed ∧ st ≠ RState.failed) then
      (Except.error SrvErr.staleRevision, c)
    else
      let rs := setReplica c.replicas address (fun _ => ⟨address, ty, st, rev, peer, up, none⟩)
      (Except.ok (), { c with replicas := rs, vstate := volumeStateOf rs })

/-- Modelled from the spec: the descriptor of the snapshot chain the external
process must replay. -/
def chainDescriptor (c : Volume) : List String := c.snapshots.map (fun s => s.name)

/-- Modelled from the spec (section 4.3 Rebuild Coordinator, absent from src):
PrepareRebuild fails with NotFound for an unknown address and with Conflict when
a ticket already exists for the address; otherwise it creates the ticket,
transitions the replica to PreparingRebuild and returns the descriptor. -/
def prepareRebuild (c : Volume) (address : String) (now deadline : Nat) :
    Except SrvErr (List String) × Volume :=
  match findReplica c address with
  | none => (Except.error SrvErr.notFound, c)
  | some _ =>
    if hasTicket c address then (Except.error SrvErr.conflict, c)
    else
      let rs := setReplica c.replicas address
        (fun r => { r with state := RState.preparingRebuild })
      (Except.ok (chainDescriptor c),
       { c with replicas := rs,
                tickets := c.tickets ++ [⟨address, chainDescriptor c, now, deadline⟩],
                vstate := volumeStateOf rs })

/-- Modelled from the spec (section 4.3 Rebuild Coordinator, absent from src):
VerifyRebuild fails with NotFound for an unknown address and with
NoOutstandingTicket when no ticket is pending; a success report (report = none)
destroys the ticket, transitions the replica to Ready and sets its revision
count to the volume's current generation; a failure report transitions the
replica to Failed and retains the reason (the ticket is destroyed only by
successful verify or expiry). -/
def verifyRebuild (c : Volume) (address : String) (report : Option String) :
    Except SrvErr Unit × Volume :=
  match findReplica c address with
  | none => (Except.error SrvErr.notFound, c)
  | some _ =>
    if !(hasTicket c address) then (Except.error SrvErr.noOutstandingTicket, c)
    else
      match report with
      | some reason =>
        let rs := setReplica c.replicas address
          (fun r => { r with state := RState.failed, failureReason := some reason })
        (Except.ok (), { c with replicas := rs, vstate := volumeStateOf rs })
      | none =>
        let rs := setReplica c.replicas address
          (fun r => { r with state := RState.ready, revisionCount := c.generation,
                             failureReason := none })
        (Except.ok (),
         { c with replicas := rs,
                  tickets := c.tickets.filter (fun t => !(t.address == address)),
                  vstate := volumeStateOf rs })

/-- Modelled from the spec (section 4.4 Volume Controller, absent from src):
a snapshot request fails with NotQuorate unless the volume is Healthy, and
otherwise records the named snapshot.  The spec does not fix which replica ends
up holding the snapshot data, so the owner address is an argument. -/
def snapshot (c : Volume) (name owner : String) : Except SrvErr String × Volume :=
  if ¬(c.vstate = VState.healthy) then (Except.error SrvErr.notQuorate, c)
  else (Except.ok name, { c with snapshots := c.snapshots ++ [⟨name, owner⟩] })

/-- Modelled from the spec (section 4.4 Volume Controller, absent from src):
Revert fails with NotQuorate unless the volume is Healthy and with NotFound when
the named snapshot is unknown; on success it forces every Ready replica except
the one holding the reverted data into AwaitingRebuild. -/
def revert (c : Volume) (name : String) : Except SrvErr Unit × Volume :=
  if ¬(c.vstate = VState.healthy) then (Except.error SrvErr.notQuorate, c)
  else
    match c.snapshots.find? (fun s => s.name == name) with
    | none => (Except.error SrvErr.notFound, c)
    | some snap =>
      let rs := c.replicas.map (fun r =>
        if r.state == RState.ready && !(r.address == snap.owner) then
          { r with state := RState.awaitingRebuild }
        else r)
      (Except.ok (), { c with replicas := rs, vstate := volumeStateOf rs })

/-- Shorthand constructor for a replica record with empty peer metadata, zero
up-time and no failure reason. -/
def mkReplica (a : String) (ty : RType) (st : RState) (rev : Int) : Replica :=
  ⟨a, ty, st, rev, "", 0, none⟩

/-- A healthy two-replica volume with one snapshot held by r1; its stored
aggregate state agrees with volumeStateOf. -/
def cHealthy : Volume :=
  ⟨[mkReplica "r1" RType.quorum RState.ready 5, mkReplica "r2" RType.quorum RState.ready 5],
   [], 5, VState.healthy, [⟨"s1", "r1"⟩]⟩

/-- A faulted single-replica volume with one snapshot. -/
def cFaulted : Volume :=
  ⟨[mkReplica "r1" RType.quorum RState.failed 5], [], 5, VState.faulted, [⟨"s1", "r1"⟩]⟩

/-- A volume in which r1 is mid-rebuild and holds the only outstanding
ticket. -/
def cTicketed : Volume :=
  ⟨[mkReplica "r1" RType.quorum RState.rebuilding 3, mkReplica "r2" RType.quorum RState.ready 5],
   [⟨"r1", ["s1"], 0, 10⟩], 7, VState.faulted, [⟨"s1", "r2"⟩]⟩

/-- A registry holding one failed replica stored at revision 5. -/
def cStale : Volume :=
  ⟨[mkReplica "r1" RType.quorum RState.failed 5], [], 5, VState.faulted, []⟩

end Ctrl

namespace Client

/-- A transport whose volume collection is always empty. -/
def tvEmptyVolumes : Transport VolumeCollection :=
  fun _ _ => Answer.up 200 (some ⟨[]⟩)

/-- A transport serving one volume whose action map is empty. -/
def tvOneVolume : Transport VolumeCollection :=
  fun _ _ => Answer.up 200 (some ⟨[⟨"vol1", []⟩]⟩)

/-- A transport answering every request with an empty 200. -/
def tpUnit : Transport Unit := fun _ _ => Answer.up 200 (some ())

/-- A transport answering every request with a decoded volume. -/
def tpVol : Transport Volume := fun _ _ => Answer.up 200 (some ⟨"vol1", []⟩)

/-- A transport answering every request with a decoded snapshot output. -/
def tpSnap : Transport SnapshotOutput := fun _ _ => Answer.up 200 (some ⟨"id1"⟩)

/-- A transport serving a replica collection holding the single replica r1. -/
def trOneReplica : Transport ReplicaCollection :=
  fun _ _ => Answer.up 200 (some ⟨[⟨"r1", [("self", "http://r1/v1/replicas/1")], []⟩]⟩)

/-- A transport answering every request with status 500 and a body that decodes
to the empty replica collection. -/
def trStatus500 : Transport ReplicaCollection :=
  fun _ _ => Answer.up 500 (some ⟨[]⟩)

end Client

/-- C9: the endpoint stored by NewControllerClient always ends with "/v1"; the
suffix is appended exactly when the input does not already end with it, so an
input already ending in "/v1" is stored unchanged, and the construction is
idempotent in the endpoint it produces. -/
theorem Client.newControllerClient_v1 (c : List Char) :
    Client.v1Suffix.isSuffixOf (Client.newControllerClient c) = true
    ∧ (Client.v1Suffix.isSuffixOf c = true → Client.newControllerClient c = c)
    ∧ (Client.v1Suffix.isSuffixOf c = false →
        Client.newControllerClient c = c ++ Client.v1Suffix)
    ∧ Client.newControllerClient (Client.newControllerClient c) =
        Client.newControllerClient c := by
  unfold Client.newControllerClient
  have happ : Client.v1Suffix.isSuffixOf (c ++ Client.v1Suffix) = true := by
    rw [List.isSuffixOf_iff_suffix]
    exact List.suffix_append c Client.v1Suffix
  by_cases h : Client.v1Suffix.isSuffixOf c
  · simp [h]
  · simp [h, happ]

/-- Witness for C9: a concrete endpoint already ending in "/v1" is stored
unchanged. -/
theorem Client.newControllerClient_v1_witness :
    Client.newControllerClient ('a' :: Client.v1Suffix) = 'a' :: Client.v1Suffix :=
  (Client.newControllerClient_v1 ('a' :: Client.v1Suffix)).2.1 (by decide)

/-- Counterexample for C5: for the single-replica set whose replica is a Failed
quorum replica, the policy reports RequiredCount 1 but quorum NOT satisfied,
although the claim asserts that for a single replica it reports satisfied. -/
theorem Ctrl.evaluate_single_failed_cex :
    (Ctrl.evaluate [Ctrl.mkReplica "r1" Ctrl.RType.quorum Ctrl.RState.failed 0]).requiredCount = 1
    ∧ (Ctrl.evaluate
        [Ctrl.mkReplica "r1" Ctrl.RType.quorum Ctrl.RState.failed 0]).quorumSatisfied = false := by
  decide

/-- C5 (amended): Evaluate is a pure function whose RequiredCount is the strict
majority of the quorum-type replicas (the least count larger than half of
them); the empty set is not satisfied; a single READY quorum replica yields
satisfied with RequiredCount 1; and two Ready quorum replicas next to one
Failed quorum replica yield satisfied with RequiredCount 2 and ReadyCount 2. -/
theorem Ctrl.evaluate_quorum (rs : List Ctrl.Replica) :
    (2 * (Ctrl.evaluate rs).requiredCount >
        (rs.filter (fun r => r.rtype == Ctrl.RType.quorum)).length
      ∧ (∀ m : Nat,
          2 * m > (rs.filter (fun r => r.rtype == Ctrl.RType.quorum)).length →
          (Ctrl.evaluate rs).requiredCount ≤ m))
    ∧ (Ctrl.evaluate []).quorumSatisfied = false
    ∧ (∀ r : Ctrl.Replica, r.rtype = Ctrl.RType.quorum → r.state = Ctrl.RState.ready →
        Ctrl.evaluate [r] = ⟨true, 1, 1⟩)
    ∧ (∀ r1 r2 r3 : Ctrl.Replica,
        r1.rtype = Ctrl.RType.quorum → r1.state = Ctrl.RState.ready →
        r2.rtype = Ctrl.RType.quorum → r2.state = Ctrl.RState.ready →
        r3.rtype = Ctrl.RType.quorum → r3.state = Ctrl.RState.failed →
        Ctrl.evaluate [r1, r2, r3] = ⟨true, 2, 2⟩) := by
  refine ⟨⟨?_, ?_⟩, ?_, ?_, ?_⟩
  · simp [Ctrl.evaluate]
    omega
  · intro m hm
    simp [Ctrl.evaluate]
    omega
  · rfl
  · intro r h1 h2
    cases r
    simp_all [Ctrl.evaluate]
  · intro r1 r2 r3 h1 h2 h3 h4 h5 h6
    cases r1
    cases r2
    cases r3
    simp_all [Ctrl.evaluate]

/-- Witness for C5: a concrete single Ready quorum replica is reported satisfied
with RequiredCount 1. -/
theorem Ctrl.evaluate_quorum_witness :
    Ctrl.evaluate [Ctrl.mkReplica "r1" Ctrl.RType.quorum Ctrl.RState.ready 0] =
      ⟨true, 1, 1⟩ :=
  (Ctrl.evaluate_quorum []).2.2.1
    (Ctrl.mkReplica "r1" Ctrl.RType.quorum Ctrl.RState.ready 0) rfl rfl

/-- C6: when the volume is not Healthy, Snapshot and Revert fail with NotQuorate
and return the controller state unchanged, so no replica record is mutated by
the failed call. -/
theorem Ctrl.notQuorate_blocks (c : Ctrl.Volume) (name owner : String)
    (h : c.vstate ≠ Ctrl.VState.healthy) :
    Ctrl.snapshot c name owner = (Except.error Ctrl.SrvErr.notQuorate, c)
    ∧ Ctrl.revert c name = (Except.error Ctrl.SrvErr.notQuorate, c) := by
  unfold Ctrl.snapshot Ctrl.revert
  simp [h]

/-- Witness for C6: a concrete Faulted volume rejects a snapshot request with
NotQuorate, leaving the state intact. -/
theorem Ctrl.notQuorate_blocks_witness :
    Ctrl.snapshot Ctrl.cFaulted "s2" "r1" =
      (Except.error Ctrl.SrvErr.notQuorate, Ctrl.cFaulted) :=
  (Ctrl.notQuorate_blocks Ctrl.cFaulted "s2" "r1" (by decide)).1

/-- Helper: finding under a predicate commutes with a pointwise update that is
applied exactly at the matching elements and preserves the predicate. -/
theorem find_map_update {α : Type} (l : List α) (p : α → Bool) (f : α → α)
    (hf : ∀ x, p x = true → p (f x) = true) (r : α) (h : l.find? p = some r) :
    (l.map (fun x => if p x then f x else x)).find? p = some (f r) := by
  induction l with
  | nil => simp at h
  | cons hd tl ih =>
    simp only [List.map_cons]
    by_cases hhd : p hd = true
    · rw [List.find?_cons_of_pos _ hhd] at h
      injection h with h2
      subst h2
      rw [if_pos hhd]
      exact List.find?_cons_of_pos _ (hf hd hhd)
    · rw [List.find?_cons_of_neg _ hhd] at h
      rw [if_neg hhd, List.find?_cons_of_neg _ hhd]
      exact ih h

/-- Helper: nothing kept by filtering on the negation of a predicate satisfies
the predicate. -/
theorem any_filter_not {α : Type} (l : List α) (p : α → Bool) :
    (l.filter (fun x => !(p x))).any p = false := by
  induction l with
  | nil => rfl
  | cons hd tl ih =>
    by_cases h : p hd = true
    · simp [List.filter_cons, h, ih]
    · have h2 : p hd = false := by
        cases hp : p hd
        · rfl
        · exact absurd hp h
      simp [List.filter_cons, h2, ih]

/-- C2: a PrepareRebuild for an address that already holds the single
outstanding ticket returns Conflict and leaves the controller unchanged; in
particular it does not create a second ticket, so the first ticket remains the
only outstanding one for that address. -/
theorem Ctrl.prepareRebuild_conflict (c : Ctrl.Volume) (a : String)
    (now deadline : Nat) (r : Ctrl.Replica)
    (hfound : Ctrl.findReplica c a = some r)
    (hone : c.tickets.countP (fun t => t.address == a) = 1) :
    Ctrl.prepareRebuild c a now deadline = (Except.error Ctrl.SrvErr.conflict, c)
    ∧ ((Ctrl.prepareRebuild c a now deadline).2.tickets.countP
        (fun t => t.address == a)) = 1 := by
  have hpos : 0 < c.tickets.countP (fun t => t.address == a) := by omega
  have ht : Ctrl.hasTicket c a = true := by
    unfold Ctrl.hasTicket
    rw [List.any_eq_true]
    rcases List.countP_pos_iff.mp hpos with ⟨t, htmem, htp⟩
    exact ⟨t, htmem, htp⟩
  have hmain : Ctrl.prepareRebuild c a now deadline =
      (Except.error Ctrl.SrvErr.conflict, c) := by
    simp [Ctrl.prepareRebuild, hfound, ht]
  refine ⟨hmain, ?_⟩
  rw [hmain]
  exact hone

/-- Witness for C2: in the concrete ticketed volume a second PrepareRebuild for
r1 returns Conflict and changes nothing. -/
theorem Ctrl.prepareRebuild_conflict_witness :
    Ctrl.prepareRebuild Ctrl.cTicketed "r1" 3 13 =
      (Except.error Ctrl.SrvErr.conflict, Ctrl.cTicketed) :=
  (Ctrl.prepareRebuild_conflict Ctrl.cTicketed "r1" 3 13
      (Ctrl.mkReplica "r1" Ctrl.RType.quorum Ctrl.RState.rebuilding 3)
      (by decide) (by decide)).1

/-- C3: for a known address, VerifyRebuild returns NoOutstandingTicket when no
ticket is pending and leaves the state unchanged; when a ticket is pending, a
successful VerifyRebuild reports ok, destroys every ticket for the address,
transitions the replica to Ready, and sets its revision count to the volume's
current generation. -/
theorem Ctrl.verifyRebuild_spec (c : Ctrl.Volume) (a : String) (r : Ctrl.Replica)
    (hfound : Ctrl.findReplica c a = some r) :
    (Ctrl.hasTicket c a = false →
      Ctrl.verifyRebuild c a none =
        (Except.error Ctrl.SrvErr.noOutstandingTicket, c))
    ∧ (Ctrl.hasTicket c a = true →
      (Ctrl.verifyRebuild c a none).1 = Except.ok ()
      ∧ Ctrl.hasTicket (Ctrl.verifyRebuild c a none).2 a = false
      ∧ Ctrl.findReplica (Ctrl.verifyRebuild c a none).2 a =
          some { r with state := Ctrl.RState.ready,
                        revisionCount := c.generation,
                        failureReason := none }) := by
  constructor
  · intro hno
    simp [Ctrl.verifyRebuild, hfound, hno]
  · intro hyes
    refine ⟨?_, ?_, ?_⟩
    · simp [Ctrl.verifyRebuild, hfound, hyes]
    · unfold Ctrl.hasTicket
      simp only [Ctrl.verifyRebuild, hfound, hyes]
      simp only [Bool.not_true, Bool.false_eq_true, if_false]
      exact any_filter_not _ _
    · unfold Ctrl.findReplica
      simp only [Ctrl.verifyRebuild, hfound, hyes]
      simp only [Bool.not_true, Bool.false_eq_true, if_false]
      unfold Ctrl.setReplica
      exact find_map_update c.replicas (fun x => x.address == a)
        (fun x => { x with state := Ctrl.RState.ready,
                           revisionCount := c.generation, failureReason := none })
        (fun x hx => hx) r hfound

/-- Witness for C3: in the concrete ticketed volume a successful verify for r1
reports ok. -/
theorem Ctrl.verifyRebuild_spec_witness :
    (Ctrl.verifyRebuild Ctrl.cTicketed "r1" none).1 = Except.ok () :=
  ((Ctrl.verifyRebuild_spec Ctrl.cTicketed "r1"
      (Ctrl.mkReplica "r1" Ctrl.RType.quorum Ctrl.RState.rebuilding 3)
      (by decide)).2 (by decide)).1

/-- Counterexample for C4: in the concrete registry storing r1 at revision 5 in
the Failed state, a Register with the lower revision 3 that moves r1 to Ready
succeeds and lowers the stored revision from 5 to 3, so per-replica revision
counts can decrease on the Failed-exit path, contrary to the claim. -/
theorem Ctrl.register_decrease_cex :
    (Ctrl.register Ctrl.cStale "r1" 3 "" Ctrl.RType.quorum 0 Ctrl.RState.ready).1 =
        Except.ok ()
    ∧ Ctrl.findReplica
        (Ctrl.register Ctrl.cStale "r1" 3 "" Ctrl.RType.quorum 0 Ctrl.RState.ready).2
        "r1" = some (Ctrl.mkReplica "r1" Ctrl.RType.quorum Ctrl.RState.ready 3)
    ∧ Ctrl.findReplica Ctrl.cStale "r1" =
        some (Ctrl.mkReplica "r1" Ctrl.RType.quorum Ctrl.RState.failed 5)
    ∧ (3 : Int) < 5 := by
  refine ⟨rfl, ?_, ?_, ?_⟩ <;> decide

/-- C4 (amended): Register inserts a record for an unknown address; for a known
address it fails with StaleRevision whenever the incoming revision count is
lower than the stored one and the replica is not moving out of Failed; and
every successful Register stores the incoming record, with the stored revision
count never decreasing except on the Failed-exit path. -/
theorem Ctrl.register_spec (c : Ctrl.Volume) (a : String) (rev : Int)
    (peer : String) (ty : Ctrl.RType) (up : Nat) (st : Ctrl.RState) :
    (Ctrl.findReplica c a = none →
      (Ctrl.register c a rev peer ty up st).1 = Except.ok ()
      ∧ Ctrl.findReplica (Ctrl.register c a rev peer ty up st).2 a =
          some ⟨a, ty, st, rev, peer, up, none⟩)
    ∧ (∀ old : Ctrl.Replica, Ctrl.findReplica c a = some old →
      ((rev < old.revisionCount ∧
          ¬(old.state = Ctrl.RState.failed ∧ st ≠ Ctrl.RState.failed)) →
        Ctrl.register c a rev peer ty up st =
          (Except.error Ctrl.SrvErr.staleRevision, c))
      ∧ ((Ctrl.register c a rev peer ty up st).1 = Except.ok () →
        Ctrl.findReplica (Ctrl.register c a rev peer ty up st).2 a =
            some ⟨a, ty, st, rev, peer, up, none⟩
        ∧ (old.revisionCount ≤ rev ∨
            (old.state = Ctrl.RState.failed ∧ st ≠ Ctrl.RState.failed)))) := by
  constructor
  · intro hnone
    have hnone2 : c.replicas.find? (fun x => x.address == a) = none := hnone
    constructor
    · simp [Ctrl.register, hnone]
    · unfold Ctrl.findReplica
      simp [Ctrl.register, hnone, List.find?_append, hnone2]
  · intro old hold
    have hold2 : c.replicas.find? (fun x => x.address == a) = some old := hold
    constructor
    · intro hcond
      simp only [Ctrl.register, hold]
      rw [if_pos hcond]
    · intro hok
      by_cases hcond : rev < old.revisionCount ∧
          ¬(old.state = Ctrl.RState.failed ∧ st ≠ Ctrl.RState.failed)
      · exfalso
        simp only [Ctrl.register, hold] at hok
        rw [if_pos hcond] at hok
        exact absurd hok (by simp)
      · constructor
        · unfold Ctrl.findReplica
          simp only [Ctrl.register, hold]
          rw [if_neg hcond]
          unfold Ctrl.setReplica
          exact find_map_update c.replicas (fun x => x.address == a)
            (fun _ => ⟨a, ty, st, rev, peer, up, none⟩)
            (fun x _ => by simp) old hold2
        · by_cases hB : old.state = Ctrl.RState.failed ∧ st ≠ Ctrl.RState.failed
          · exact Or.inr hB
          · refine Or.inl ?_
            by_contra hlt
            exact hcond ⟨by omega, hB⟩

/-- Witness for C4: registering an unknown address in the empty registry
succeeds. -/
theorem Ctrl.register_spec_witness :
    (Ctrl.register ⟨[], [], 0, Ctrl.VState.faulted, []⟩ "r1" 1 ""
        Ctrl.RType.quorum 0 Ctrl.RState.registering).1 = Except.ok () :=
  ((Ctrl.register_spec ⟨[], [], 0, Ctrl.VState.faulted, []⟩ "r1" 1 ""
      Ctrl.RType.quorum 0 Ctrl.RState.registering).1 (by decide)).1

/-- C7: under the Healthy gate of the volume controller, Revert fails with
NotFound when the named snapshot is unknown and changes nothing; on success it
moves every Ready replica other than the one holding the reverted data into
AwaitingRebuild and leaves the reverted-to replica, as well as every non-Ready
replica, unchanged. -/
theorem Ctrl.revert_spec (c : Ctrl.Volume) (name : String)
    (h : c.vstate = Ctrl.VState.healthy) :
    (c.snapshots.find? (fun s => s.name == name) = none →
      Ctrl.revert c name = (Except.error Ctrl.SrvErr.notFound, c))
    ∧ (∀ snap : Ctrl.SnapshotRec,
        c.snapshots.find? (fun s => s.name == name) = some snap →
        (Ctrl.revert c name).1 = Except.ok ()
        ∧ List.Forall₂ (fun old new =>
            (old.state = Ctrl.RState.ready → old.address ≠ snap.owner →
              new = { old with state := Ctrl.RState.awaitingRebuild })
            ∧ (old.address = snap.owner → new = old)
            ∧ (old.state ≠ Ctrl.RState.ready → new = old))
          c.replicas (Ctrl.revert c name).2.replicas) := by
  constructor
  · intro hnone
    simp [Ctrl.revert, h, hnone]
  · intro snap hsnap
    constructor
    · simp [Ctrl.revert, h, hsnap]
    · have hred : (Ctrl.revert c name).2.replicas =
          c.replicas.map (fun r =>
            if r.state == Ctrl.RState.ready && !(r.address == snap.owner) then
              { r with state := Ctrl.RState.awaitingRebuild }
            else r) := by
        simp [Ctrl.revert, h, hsnap]
      rw [hred]
      rw [List.forall₂_map_right_iff]
      rw [List.forall₂_same]
      intro x hx
      refine ⟨?_, ?_, ?_⟩
      · intro hready howner
        have hc : (x.state == Ctrl.RState.ready && !(x.address == snap.owner)) = true := by
          simp [hready, howner]
        simp [hc]
      · intro howner
        have hc : (x.state == Ctrl.RState.ready && !(x.address == snap.owner)) = false := by
          simp [howner]
        simp [hc]
      · intro hnready
        have hs : (x.state == Ctrl.RState.ready) = false :=
          beq_eq_false_iff_ne.mpr hnready
        have hc : (x.state == Ctrl.RState.ready && !(x.address == snap.owner)) = false := by
          simp [hs]
        simp [hc]

/-- Witness for C7: reverting the concrete healthy volume to its known snapshot
s1 succeeds. -/
theorem Ctrl.revert_spec_witness :
    (Ctrl.revert Ctrl.cHealthy "s1").1 = Except.ok () :=
  ((Ctrl.revert_spec Ctrl.cHealthy "s1" rfl).2 ⟨"s1", "r1"⟩ (by decide)).1

/-- Counterexample for C8: the get path never inspects the status code, so a
response with status 500 whose body decodes (an empty collection) is returned
as success, although the claim says every status of at least 300 is surfaced
as an error. -/
theorem Client.get_ignores_status_cex :
    (Client.clientGet "http://c/v1" "/replicas" Client.trStatus500).1 =
        Except.ok ⟨[]⟩
    ∧ 300 ≤ 500 := by
  exact ⟨rfl, by omega⟩

/-- Helper: the delete loop consults the transport at most once per call: its
request trace holds at most one entry. -/
theorem Client.deleteLoop_length (td : Client.Transport Unit) (a : String)
    (reps : List Client.Replica) :
    (Client.deleteLoop td a reps).2.length ≤ 1 := by
  induction reps with
  | nil => simp [Client.deleteLoop]
  | cons hd tl ih =>
    by_cases hhd : (hd.address == a) = true
    · simp [Client.deleteLoop, hhd]
    · simp only [Client.deleteLoop, hhd, Bool.false_eq_true, if_false]
      exact ih

/-- Helper: the delete loop surfaces a transport error, or any status of at
least 300, of the DELETE on the first matching replica immediately as an
error. -/
theorem Client.deleteLoop_failure (td : Client.Transport Unit) (a : String)
    (reps : List Client.Replica) (r : Client.Replica)
    (hfind : reps.find? (fun x => x.address == a) = some r) :
    (∀ m, td Client.Method.delete (Client.mapIndex r.links "self") =
        Client.Answer.down m →
      (Client.deleteLoop td a reps).1 =
        Except.error (Client.CliErr.transportFailure m))
    ∧ (∀ s b, td Client.Method.delete (Client.mapIndex r.links "self") =
        Client.Answer.up s b → 300 ≤ s →
      (Client.deleteLoop td a reps).1 =
        Except.error (Client.CliErr.badResponse s)) := by
  induction reps with
  | nil => simp at hfind
  | cons hd tl ih =>
    by_cases hhd : (hd.address == a) = true
    · have hstep : List.find? (fun x => x.address == a) (hd :: tl) = some hd :=
        List.find?_cons_of_pos _ hhd
      rw [hstep] at hfind
      injection hfind with h2
      subst h2
      constructor
      · intro m hm
        simp [Client.deleteLoop, hhd, hm]
      · intro s b hs h300
        simp [Client.deleteLoop, hhd, hs, h300]
    · have hstep : List.find? (fun x => x.address == a) (hd :: tl) =
          List.find? (fun x => x.address == a) tl :=
        List.find?_cons_of_neg _ hhd
      rw [hstep] at hfind
      simp only [Client.deleteLoop, hhd, Bool.false_eq_true, if_false]
      exact ih hfind

/-- C8 (amended): every HTTP helper issues each request at most once and never
retries: do and get consult the transport exactly once per exchange, and the
delete loop at most once per call; do surfaces a transport error or any status
of at least 300 as an immediate error, and so does the raw DELETE issued by the
delete loop; get surfaces transport errors and decode failures immediately but
ignores the status code, returning whatever the body decodes to. -/
theorem Client.no_retry {α : Type} (controller path : String)
    (method : Client.Method) (wantBody : Bool) (t : Client.Transport α)
    (td : Client.Transport Unit) (a : String) (reps : List Client.Replica) :
    (Client.clientDo controller path method wantBody t).2.length = 1
    ∧ (Client.clientGet controller path t).2.length = 1
    ∧ (∀ m, t method (Client.doUrl controller path) = Client.Answer.down m →
        (Client.clientDo controller path method wantBody t).1 =
          Except.error (Client.CliErr.transportFailure m))
    ∧ (∀ s b, t method (Client.doUrl controller path) = Client.Answer.up s b →
        300 ≤ s →
        (Client.clientDo controller path method wantBody t).1 =
          Except.error (Client.CliErr.badResponse s))
    ∧ (∀ m, t Client.Method.get (controller ++ path) = Client.Answer.down m →
        (Client.clientGet controller path t).1 =
          Except.error (Client.CliErr.transportFailure m))
    ∧ (∀ s, t Client.Method.get (controller ++ path) = Client.Answer.up s none →
        (Client.clientGet controller path t).1 =
          Except.error Client.CliErr.decodeFailure)
    ∧ (Client.deleteLoop td a reps).2.length ≤ 1
    ∧ (∀ r : Client.Replica, reps.find? (fun x => x.address == a) = some r →
        (∀ m, td Client.Method.delete (Client.mapIndex r.links "self") =
            Client.Answer.down m →
          (Client.deleteLoop td a reps).1 =
            Except.error (Client.CliErr.transportFailure m))
        ∧ (∀ s b, td Client.Method.delete (Client.mapIndex r.links "self") =
            Client.Answer.up s b → 300 ≤ s →
          (Client.deleteLoop td a reps).1 =
            Except.error (Client.CliErr.badResponse s)))
    ∧ (∀ s v, t Client.Method.get (controller ++ path) =
          Client.Answer.up s (some v) →
        (Client.clientGet controller path t).1 = Except.ok v) := by
  refine ⟨rfl, rfl, ?_, ?_, ?_, ?_, ?_, ?_, ?_⟩
  · intro m hm
    simp [Client.clientDo, hm]
  · intro s b hs h300
    simp [Client.clientDo, hs, h300]
  · intro m hm
    simp [Client.clientGet, hm]
  · intro s hs
    simp [Client.clientGet, hs]
  · exact Client.deleteLoop_length td a reps
  · intro r hfind
    exact Client.deleteLoop_failure td a reps r hfind
  · intro s v hv
    simp [Client.clientGet, hv]

/-- Witness for C8: a concrete 200 response on the get path is returned
decoded, and the DELETE of the listed replica r1 answered with status 500 is
surfaced as a bad-response error by the delete loop. -/
theorem Client.no_retry_witness :
    (Client.clientGet "http://c/v1" "/replicas" Client.trOneReplica).1 =
      Except.ok ⟨[⟨"r1", [("self", "http://r1/v1/replicas/1")], []⟩]⟩
    ∧ (Client.deleteLoop (fun _ _ => Client.Answer.up 500 (some ())) "r1"
        [⟨"r1", [("self", "http://r1/v1/replicas/1")], []⟩]).1 =
      Except.error (Client.CliErr.badResponse 500) :=
  ⟨(Client.no_retry "http://c/v1" "/replicas" Client.Method.get false
      Client.trOneReplica Client.tpUnit "r1" []).2.2.2.2.2.2.2.2 200
      ⟨[⟨"r1", [("self", "http://r1/v1/replicas/1")], []⟩]⟩ rfl,
   ((Client.no_retry "http://c/v1" "/replicas" Client.Method.get false
        Client.trOneReplica (fun _ _ => Client.Answer.up 500 (some ())) "r1"
        [⟨"r1", [("self", "http://r1/v1/replicas/1")], []⟩]).2.2.2.2.2.2.2.1
      ⟨"r1", [("self", "http://r1/v1/replicas/1")], []⟩ (by decide)).2 500
      (some ()) rfl (by omega)⟩

/-- C10: GetVolume maps a decoded empty volume collection to the error
"No volume found" and otherwise returns the first volume of the collection; and
every operation that begins with GetVolume (Start, RevertVolume, Snapshot,
RevertSnapshot) propagates a GetVolume error unchanged and issues no POST
request (its whole trace consists of GET requests). -/
theorem Client.getVolume_spec (controller : String)
    (tv : Client.Transport Client.VolumeCollection)
    (tp tpu : Client.Transport Unit) (tpv : Client.Transport Client.Volume)
    (tps : Client.Transport Client.SnapshotOutput)
    (name snap : String) :
    (∀ s l, tv Client.Method.get (controller ++ "/volumes") =
          Client.Answer.up s (some ⟨l⟩) →
        (Client.getVolume controller tv).1 =
          (match l with
           | [] => Except.error Client.CliErr.noVolumeFound
           | v :: _ => Except.ok v))
    ∧ (∀ e : Client.CliErr, (Client.getVolume controller tv).1 = Except.error e →
        (Client.start controller tv tp).1 = Except.error e
        ∧ (Client.revertVolume controller name tv tpv).1 = Except.error e
        ∧ (Client.snapshotCall controller name tv tps).1 = Except.error e
        ∧ (Client.revertSnapshot controller snap tv tpu).1 = Except.error e
        ∧ (∀ q ∈ (Client.start controller tv tp).2, q.1 = Client.Method.get)
        ∧ (∀ q ∈ (Client.revertVolume controller name tv tpv).2,
            q.1 = Client.Method.get)
        ∧ (∀ q ∈ (Client.snapshotCall controller name tv tps).2,
            q.1 = Client.Method.get)
        ∧ (∀ q ∈ (Client.revertSnapshot controller snap tv tpu).2,
            q.1 = Client.Method.get)) := by
  have htr : (Client.getVolume controller tv).2 =
      [(Client.Method.get, controller ++ "/volumes")] := by
    unfold Client.getVolume
    rcases hc : (Client.clientGet controller "/volumes" tv).1 with e2 | vols
    · simp [hc]
      rfl
    · rcases hd : vols.data with _ | ⟨v, rest⟩
      · simp [hc, hd]
        rfl
      · simp [hc, hd]
        rfl
  constructor
  · intro s l hup
    rcases l with _ | ⟨v, rest⟩ <;> simp [Client.getVolume, Client.clientGet, hup]
  · intro e h
    refine ⟨?_, ?_, ?_, ?_, ?_, ?_, ?_, ?_⟩
    · simp [Client.start, h]
    · simp [Client.revertVolume, h]
    · simp [Client.snapshotCall, h]
    · simp [Client.revertSnapshot, h]
    · intro q hq
      simp [Client.start, h, htr] at hq
      simp [hq]
    · intro q hq
      simp [Client.revertVolume, h, htr] at hq
      simp [hq]
    · intro q hq
      simp [Client.snapshotCall, h, htr] at hq
      simp [hq]
    · intro q hq
      simp [Client.revertSnapshot, h, htr] at hq
      simp [hq]

/-- Witness for C10: with a transport serving the one-volume collection,
GetVolume returns its first volume, and with a transport serving an empty
collection, Start fails with the propagated "No volume found" error. -/
theorem Client.getVolume_spec_witness :
    (Client.getVolume "http://c/v1" Client.tvOneVolume).1 =
      Except.ok ⟨"vol1", []⟩
    ∧ (Client.start "http://c/v1" Client.tvEmptyVolumes Client.tpUnit).1 =
      Except.error Client.CliErr.noVolumeFound :=
  ⟨(Client.getVolume_spec "http://c/v1" Client.tvOneVolume Client.tpUnit
      Client.tpUnit Client.tpVol Client.tpSnap "s" "s").1 200 [⟨"vol1", []⟩] rfl,
   ((Client.getVolume_spec "http://c/v1" Client.tvEmptyVolumes Client.tpUnit
      Client.tpUnit Client.tpVol Client.tpSnap "s" "s").2
      Client.CliErr.noVolumeFound rfl).1⟩

/-- Helper: when no listed replica matches the address, the delete loop issues
nothing and returns ok with no record. -/
theorem Client.deleteLoop_absent (td : Client.Transport Unit) (a : String)
    (reps : List Client.Replica) (h : ∀ r ∈ reps, (r.address == a) = false) :
    Client.deleteLoop td a reps = (Except.ok none, []) := by
  induction reps with
  | nil => rfl
  | cons hd tl ih =>
    have hhd := h hd (by simp)
    simp only [Client.deleteLoop, hhd, Bool.false_eq_true, if_false]
    exact ih (fun r hr => h r (by simp [hr]))

/-- Helper: when the first matching replica's DELETE succeeds (status below
300), the delete loop returns that record. -/
theorem Client.deleteLoop_found (td : Client.Transport Unit) (a : String)
    (reps : List Client.Replica) (r : Client.Replica)
    (hfind : reps.find? (fun x => x.address == a) = some r)
    (s : Nat) (b : Option Unit)
    (hs : td Client.Method.delete (Client.mapIndex r.links "self") =
      Client.Answer.up s b) (h300 : s < 300) :
    (Client.deleteLoop td a reps).1 = Except.ok (some r) := by
  induction reps with
  | nil => simp at hfind
  | cons hd tl ih =>
    by_cases hhd : (hd.address == a) = true
    · have hstep : List.find? (fun x => x.address == a) (hd :: tl) = some hd :=
        List.find?_cons_of_pos _ hhd
      rw [hstep] at hfind
      injection hfind with h2
      subst h2
      have hns : ¬(300 ≤ s) := by omega
      simp [Client.deleteLoop, hhd, hs, hns]
    · have hstep : List.find? (fun x => x.address == a) (hd :: tl) =
          List.find? (fun x => x.address == a) tl :=
        List.find?_cons_of_neg _ hhd
      rw [hstep] at hfind
      simp only [Client.deleteLoop, hhd, Bool.false_eq_true, if_false]
      exact ih hfind

/-- Counterexample for C1: with a transport listing only replica r1, deleting
the absent address r9 silently returns ok with no record and issues no DELETE,
instead of failing with a NotFound error as the claim demands. -/
theorem Client.deleteReplica_absent_cex :
    Client.deleteReplica "http://c/v1" "r9" Client.trOneReplica Client.tpUnit =
      (Except.ok none, [(Client.Method.get, "http://c/v1" ++ "/replicas")]) := by
  rfl

/-- C1 (amended): for an address absent from the listed replica set,
DeleteReplica returns success with no record and issues no DELETE request; for
an address present in the set whose DELETE succeeds, it returns the removed
record. -/
theorem Client.deleteReplica_spec (controller address : String)
    (tr : Client.Transport Client.ReplicaCollection) (td : Client.Transport Unit)
    (reps : List Client.Replica)
    (hlist : (Client.listReplicas controller tr).1 = Except.ok reps) :
    ((∀ r ∈ reps, (r.address == address) = false) →
      (Client.deleteReplica controller address tr td).1 = Except.ok none
      ∧ ∀ q ∈ (Client.deleteReplica controller address tr td).2,
          q.1 ≠ Client.Method.delete)
    ∧ (∀ r : Client.Replica, reps.find? (fun x => x.address == address) = some r →
        ∀ s b, td Client.Method.delete (Client.mapIndex r.links "self") =
            Client.Answer.up s b →
          s < 300 →
          (Client.deleteReplica controller address tr td).1 =
            Except.ok (some r)) := by
  have htr : (Client.listReplicas controller tr).2 =
      [(Client.Method.get, controller ++ "/replicas")] := rfl
  constructor
  · intro habs
    have hloop := Client.deleteLoop_absent td address reps habs
    constructor
    · simp [Client.deleteReplica, hlist, hloop]
    · intro q hq
      simp [Client.deleteReplica, hlist, hloop, htr] at hq
      simp [hq]
  · intro r hfind s b hs h300
    have hloop := Client.deleteLoop_found td address reps r hfind s b hs h300
    simp only [Client.deleteReplica, hlist]
    exact hloop

/-- Witness for C1: deleting the present replica r1 returns the removed
record. -/
theorem Client.deleteReplica_spec_witness :
    (Client.deleteReplica "http://c/v1" "r1" Client.trOneReplica Client.tpUnit).1 =
      Except.ok (some ⟨"r1", [("self", "http://r1/v1/replicas/1")], []⟩) :=
  (Client.deleteReplica_spec "http://c/v1" "r1" Client.trOneReplica Client.tpUnit
      [⟨"r1", [("self", "http://r1/v1/replicas/1")], []⟩] rfl).2
    ⟨"r1", [("self", "http://r1/v1/replicas/1")], []⟩ (by decide)
    200 (some ()) rfl (by omega)
